import Mathlib

/-!
Shallow embedding of the CoPylot plotting utilities
(`ContourPlotUtils.py`, `CorPlotUtils.py`, `DistPlotUtils.py`,
`MapPlotUtils.py`, `SplitPlotUtils.py`).

Numeric values are rationals; Python float infinities and NaN are the
explicit constructors of `RVal`.  Fallible Python operations (list
indexing, gridspec validation, uncloneable artists) return
`Except PyErr`.  Matplotlib figure and axes objects are records whose
fields are exactly the state the source reads or writes.
-/

/-- Python exceptions raised by the embedded code. -/
inductive PyErr
  | indexError
  | typeError
  | valueError
  | attributeError
deriving Repr, DecidableEq

/-- Equality of `Except` results is decidable when both components are,
so the evaluation theorems below can be settled by `decide`. -/
instance instDecEqExcept {ε α : Type _} [DecidableEq ε] [DecidableEq α] :
    DecidableEq (Except ε α) := fun x y => by
  cases x with
  | ok a =>
    cases y with
    | ok b => exact decidable_of_iff (a = b) (by simp)
    | error f => exact isFalse (fun h => by simp at h)
  | error e =>
    cases y with
    | ok b => exact isFalse (fun h => by simp at h)
    | error f => exact decidable_of_iff (e = f) (by simp)

/-- A Python numeric value as the source manipulates it: a finite number
(kept exact as a rational), one of the two infinities, or NaN. -/
inductive RVal
  | fin (q : ℚ)
  | pinf
  | ninf
  | nan
deriving Repr, DecidableEq

/-- Python `!=` on `RVal`: NaN compares unequal to everything (itself
included); other values compare structurally. -/
def pyNe (a b : RVal) : Bool :=
  match a, b with
  | .nan, _ => true
  | _, .nan => true
  | a, b => a != b

/-- Claim-side predicate: the value is `+inf` or `-inf`. -/
def isInfiniteVal (v : RVal) : Bool :=
  v == RVal.pinf || v == RVal.ninf

/-- `filterFinite` from `CorPlotUtils.py` line 16 and `DistPlotUtils.py`
line 15 (the two copies are identical):
`[X != numpy.inf and X != -numpy.inf for X in values]`. -/
def filterFinite (values : List RVal) : List Bool :=
  values.map (fun X => pyNe X RVal.pinf && pyNe X RVal.ninf)

/-- The Python comprehension `[X for X, mask in zip(values, masks) if mask]`. -/
def maskSelect (values : List RVal) (masks : List Bool) : List RVal :=
  ((List.zip values masks).filter (fun p => p.2)).map (fun p => p.1)

/-- An axis scale, the argument of `set_xscale` / `set_yscale`. -/
inductive Scale
  | linear
  | log
deriving Repr, DecidableEq

/-- Python list indexing `l[i]` for a nonnegative index: the element, or
IndexError past the end. -/
def pyGet (l : List α) (i : ℕ) : Except PyErr α :=
  if h : i < l.length then .ok l[i] else .error .indexError

/-! ## CorPlotUtils.scatter -/

/-- One `axes.scatter(x, y, c = colors, marker = marker, label = dataLabel)`
call recorded on an axes. -/
structure ScatterCall where
  xs : List RVal
  ys : List RVal
  colors : Option (List String)
  marker : String
  dataLabel : Option String
deriving Repr, DecidableEq

/-- The axes state touched by `scatter`. -/
structure SAxes where
  xscale : Option Scale := none
  yscale : Option Scale := none
  scatters : List ScatterCall := []
  annots : List (String × RVal × RVal) := []
  xlim : Option (ℚ × ℚ) := none
  ylim : Option (ℚ × ℚ) := none
  xlabel : Option String := none
  ylabel : Option String := none
  legendShown : Option (Option String) := none
deriving Repr, DecidableEq

/-- The figure state touched by `scatter`. -/
structure SFigure where
  axes : List SAxes := []
  savedTo : Option (String × String) := none
deriving Repr, DecidableEq

/-- `scatter` from `CorPlotUtils.py` lines 19-168.  The `linearFit` /
`showFormula` branch (lines 142-148) is a floating-point `numpy.polyfit`
and is outside this rational embedding; every claim about `scatter` is
about the default `linearFit = False` path, which the definition models. -/
def scatter (x y : List RVal) (filename : String := "")
    (transform : Option (RVal → RVal) := none)
    (labels : Option (List String) := none)
    (colors : Option (List String) := none) (marker : String := "o")
    (xlim : Option (ℚ × ℚ) := none) (ylim : Option (ℚ × ℚ) := none)
    (xLogScale : Bool := false) (yLogScale : Bool := false)
    (xLabel : Option String := none) (yLabel : Option String := none)
    (dataLabel : Option String := none) (legend : Bool := false)
    (legendTitle : Option String := none) (append : Option SFigure := none)
    (fileFormat : String := "png") : SFigure :=
  -- Transform the data before plotting
  let x := match transform with | some t => x.map t | none => x
  let y := match transform with | some t => y.map t | none => y
  -- Exclude infinite values
  let masks := (List.zip (filterFinite x) (filterFinite y)).map
                 (fun p => p.1 && p.2)
  let x := maskSelect x masks
  let y := maskSelect y masks
  -- Get an existing plot
  let fu : SFigure × Bool :=
    match append with
    | some f => if 0 < f.axes.length then (f, true)
                else ({ f with axes := [{}] }, false)
    | none => ({ axes := [{}] }, false)
  let figure := fu.1
  let update := fu.2
  let ax := figure.axes.headD {}
  -- Set the axis scale
  let ax := if update then ax else
    { ax with xscale := some (if xLogScale then .log else .linear),
              yscale := some (if yLogScale then .log else .linear) }
  -- Make a scatter plot
  let ax := { ax with scatters := ax.scatters ++
                [{ xs := x, ys := y, colors := colors, marker := marker,
                   dataLabel := dataLabel }] }
  -- Add labels alongside points
  let newAnnots : List String → List (String × RVal × RVal) := fun ls =>
    (List.zip (List.zip x y) ls).map (fun p => (p.2, p.1.1, p.1.2))
  let ax : SAxes := match labels with
    | some ls => { ax with annots := ax.annots ++ newAnnots ls }
    | none => ax
  -- Adjust the plot range
  let ax : SAxes :=
    match xlim with | some l => { ax with xlim := some l } | none => ax
  let ax : SAxes :=
    match ylim with | some l => { ax with ylim := some l } | none => ax
  -- Set the axis label
  let ax := { ax with xlabel := xLabel, ylabel := yLabel }
  -- Set the legend
  let ax := if legend then { ax with legendShown := some legendTitle } else ax
  -- Save the plot to a file if needed
  { figure with
    axes := ax :: figure.axes.tail,
    savedTo := if 0 < filename.length then some (filename, fileFormat)
               else none }

/-! ## DistPlotUtils.hist -/

/-- The axes state touched by `hist`: recorded `axes.hist` calls
(data, bins, color) and the plot range. -/
structure HistAxes where
  hists : List (List RVal × ℕ × Option String) := []
  xlim : Option (ℚ × ℚ) := none
  ylim : Option (ℚ × ℚ) := none
deriving Repr, DecidableEq

/-- The figure state touched by `hist`. -/
structure HistFigure where
  axes : List HistAxes := []
  savedTo : Option (String × String) := none
deriving Repr, DecidableEq

/-- `hist` from `DistPlotUtils.py` lines 18-78. -/
def hist (x : List RVal) (filename : String := "")
    (transform : Option (RVal → RVal) := none) (binCount : ℕ := 10)
    (color : Option String := none) (xlim : Option (ℚ × ℚ) := none)
    (ylim : Option (ℚ × ℚ) := none) : HistFigure :=
  -- Transform the data before plotting
  let x := match transform with | some t => x.map t | none => x
  -- Exclude infinite values
  let x := maskSelect x (filterFinite x)
  -- Make the plot
  let ax : HistAxes := { hists := [(x, binCount, color)] }
  -- Adjust the plot range
  let ax : HistAxes :=
    match xlim with | some l => { ax with xlim := some l } | none => ax
  let ax : HistAxes :=
    match ylim with | some l => { ax with ylim := some l } | none => ax
  -- Save the plot to a file if needed
  { axes := [ax],
    savedTo := if 0 < filename.length then some (filename, "png") else none }

/-! ## ContourPlotUtils.contour2D -/

/-- The `matplotlib.ticker` locator chosen for the color bar. -/
inductive TickLocator
  | logLoc (base : ℕ) (numticks : ℕ)
  | linearLoc (numticks : ℕ)
deriving Repr, DecidableEq

/-- The figure state touched by `contour2D`.  The default value is the
blank figure `PyPlot.subplots()` creates: nothing drawn, nothing set,
nothing saved. -/
structure CFigure where
  contour : Option (List ℚ × List ℚ × List (List ℚ) × TickLocator) := none
  colorbar : Bool := false
  colorbarLabel : Option String := none
  xscale : Option Scale := none
  yscale : Option Scale := none
  xlim : Option (ℚ × ℚ) := none
  ylim : Option (ℚ × ℚ) := none
  clim : Option (ℚ × ℚ) := none
  xlabel : Option String := none
  ylabel : Option String := none
  savedTo : Option (String × String) := none
deriving Repr, DecidableEq

/-- The validation test of `ContourPlotUtils.py` line 75:
`len(X) == 0 or len(Y) == 0 or len(X) != len(Z) or len(Y) != len(Z[0])`
(`Z[0]` is only reached with `Z` nonempty, so `headD` is faithful). -/
def contourArgsInvalid (X Y : List ℚ) (Z : List (List ℚ)) : Bool :=
  X.length == 0 || Y.length == 0 || X.length != Z.length
    || Y.length != (Z.headD []).length

/-- `contour2D` from `ContourPlotUtils.py` lines 14-102. -/
def contour2D (X Y : List ℚ) (Z : List (List ℚ)) (filename : String := "")
    (xLogScale : Bool := false) (yLogScale : Bool := false)
    (xlim : Option (ℚ × ℚ) := none) (ylim : Option (ℚ × ℚ) := none)
    (fillRange : Option (ℚ × ℚ) := none)
    (xLabel : String := "x") (yLabel : String := "y")
    (fillLabel : String := "") (fillTickCount : ℕ := 11)
    (fillLogScale : Bool := false) (fillLogScaleBase : ℕ := 2) :
    Except PyErr CFigure :=
  if contourArgsInvalid X Y Z then .ok {}
  else do
    let locator := if fillLogScale then
        TickLocator.logLoc fillLogScaleBase fillTickCount
      else TickLocator.linearLoc fillTickCount
    -- `[[z[i] for z in Z] for i in range(0, len(Z[0]))]`
    let rows ← (List.range (Z.headD []).length).mapM
                 (fun i => Z.mapM (fun z => pyGet z i))
    .ok { contour := some (X, Y, rows, locator),
          colorbar := true,
          colorbarLabel := if 0 < fillLabel.length then some fillLabel
                           else none,
          xscale := some (if xLogScale then .log else .linear),
          yscale := some (if yLogScale then .log else .linear),
          xlim := xlim, ylim := ylim, clim := fillRange,
          xlabel := some xLabel, ylabel := some yLabel,
          savedTo := if 0 < filename.length then some (filename, "png")
                     else none }

/-! ## MapPlotUtils.heatmap2D -/

/-- `math.nan if W is None else W` from `MapPlotUtils.py` lines 85-88. -/
def toNan (w : Option RVal) : RVal :=
  match w with
  | none => RVal.nan
  | some v => v

/-- The figure state touched by `heatmap2D`. -/
structure MFigure where
  image : Option (List (List RVal)) := none
  logNorm : Bool := false
  palette : Option String := none
  badColor : Option String := none
  colorbar : Bool := false
  xticks : Option (List ℕ × List ℚ × ℚ) := none
  yticks : Option (List ℕ × List ℚ × ℚ) := none
  invertedX : Bool := false
  invertedY : Bool := false
  xlabel : Option String := none
  ylabel : Option String := none
  fillLabel : Option String := none
  savedTo : Option (String × String) := none
deriving Repr, DecidableEq

/-- The emptiness test of `MapPlotUtils.py` line 82:
`len(Z) == 0 or len(Z[0]) == 0` (for empty `Z`, Python evaluates
`len(Z[0])` only after `len(Z) == 0` already returned `True`, so
`headD` is faithful). -/
def heatmapArgsEmpty (Z : List (List (Option RVal))) : Bool :=
  Z.length == 0 || (Z.headD []).length == 0

/-- The tick positions `[i for i in range(0, len(X)) if X[i] is not None]`
and labels `[x for x in X if x is not None]` of `MapPlotUtils.py`
lines 101-102. -/
def tickSpec (xs : List (Option ℚ)) (rotate : ℚ) : List ℕ × List ℚ × ℚ :=
  ((List.range xs.length).filter (fun i => (xs.getD i none).isSome),
   xs.filterMap id, rotate)

/-- `heatmap2D` from `MapPlotUtils.py` lines 16-124. -/
def heatmap2D (Z : List (List (Option RVal)))
    (X : Option (List (Option ℚ)) := none)
    (Y : Option (List (Option ℚ)) := none) (filename : String := "")
    (inverseX : Bool := false) (inverseY : Bool := true)
    (transpose : Bool := false) (paletteName : String := "viridis")
    (colorNA : String := "white") (xLabel : Option String := none)
    (yLabel : Option String := none) (fillLabel : Option String := none)
    (fillLogScale : Bool := false) (rotateLabelX : ℚ := 45)
    (rotateLabelY : ℚ := 0) : Except PyErr MFigure :=
  if heatmapArgsEmpty Z then .ok {}
  else do
    let Zr ← if transpose then
        pure (Z.map (fun V => V.map toNan))
      else
        -- `[[nan if z[i] is None else z[i] for z in Z]
        --   for i in range(0, len(Z[0]))]`
        (List.range (Z.headD []).length).mapM
          (fun i => Z.mapM (fun z => (pyGet z i).map toNan))
    .ok { image := some Zr,
          logNorm := fillLogScale,
          palette := some paletteName,
          badColor := some colorNA,
          colorbar := true,
          xticks := X.map (fun xs => tickSpec xs rotateLabelX),
          yticks := Y.map (fun ys => tickSpec ys rotateLabelY),
          invertedX := inverseX, invertedY := inverseY,
          xlabel := xLabel, ylabel := yLabel, fillLabel := fillLabel,
          savedTo := if 0 < filename.length then some (filename, "png")
                     else none }

/-! ## SplitPlotUtils -/

/-- A matplotlib artist as `SplitPlotUtils.py` inspects one, with the
data `cloneArtist` copies as payload.  One constructor per concrete
class the source can receive, so the `isinstance` hierarchy (a
`Rectangle` and a `Spine` are `Patch`es, a `PathCollection` is a
`Collection`, but a `LineCollection` is not a `PathCollection` and a
`Circle` is not a `Rectangle`) becomes the predicates below. -/
inductive Artist
  | pathCollection (offsets : List (ℚ × ℚ)) (faceColors edgeColors : String)
  | lineCollection
  | axisArtist
  | line2D (xdata ydata : List ℚ) (color : String)
  | rectangle (xy : ℚ × ℚ) (width height : ℚ)
  | circlePatch
  | spine (spineType : String) (path : List (ℚ × ℚ))
  | text (position : ℚ × ℚ) (content : String)
  | otherArtist
deriving Repr, DecidableEq

/-- The tag of an artist, for stating which class `cloneArtist` built. -/
inductive ArtistKind
  | pathCollection
  | lineCollection
  | axisArtist
  | line2D
  | rectangle
  | circlePatch
  | spine
  | text
  | otherArtist
deriving Repr, DecidableEq

/-- The concrete class tag of an artist. -/
def Artist.kind : Artist → ArtistKind
  | .pathCollection _ _ _ => .pathCollection
  | .lineCollection => .lineCollection
  | .axisArtist => .axisArtist
  | .line2D _ _ _ => .line2D
  | .rectangle _ _ _ => .rectangle
  | .circlePatch => .circlePatch
  | .spine _ _ => .spine
  | .text _ _ => .text
  | .otherArtist => .otherArtist

/-- `isinstance(artist, Axis.Axis)`. -/
def Artist.isAxis (a : Artist) : Bool := a.kind == .axisArtist

/-- `isinstance(artist, Patches.Patch)`: rectangles, other patches, and
spines (`matplotlib.spines.Spine` subclasses `Patch`). -/
def Artist.isPatch (a : Artist) : Bool :=
  a.kind == .rectangle || a.kind == .circlePatch || a.kind == .spine

/-- `isinstance(artist, Spine.Spine)`. -/
def Artist.isSpine (a : Artist) : Bool := a.kind == .spine

/-- `isinstance(artist, Text.Text)`. -/
def Artist.isText (a : Artist) : Bool := a.kind == .text

/-- The artist kinds `cloneArtist` handles without raising: the six
`isinstance` branches of `SplitPlotUtils.py` lines 40-59. -/
def cloneSupported (a : Artist) : Bool :=
  a.kind == .pathCollection || a.kind == .axisArtist || a.kind == .line2D
    || a.kind == .rectangle || a.kind == .spine || a.kind == .text

/-- `cloneArtist` from `SplitPlotUtils.py` lines 21-64.  The `axes`
argument defaults to `None`; a `PathCollection` is cloned through
`axes.scatter`, which on `None` raises AttributeError.  Attachment of
the clone to `axes` has no observable state in this embedding, so the
clone of each supported artist carries the data the source copies.
Any other artist raises
`TypeError: the artist of type ... cannot be cloned`. -/
def cloneArtist (artist : Artist) (axes : Option Unit := none) :
    Except PyErr Artist :=
  match artist with
  | .pathCollection offsets faceColors edgeColors =>
    -- data = artist.get_offsets().data.T; newArtist = axes.scatter(...)
    match axes with
    | some _ => .ok (.pathCollection offsets faceColors edgeColors)
    | none => .error .attributeError
  | .axisArtist => .ok .axisArtist
  | .line2D xdata ydata color => .ok (.line2D xdata ydata color)
  | .rectangle xy width height => .ok (.rectangle xy width height)
  | .spine spineType path => .ok (.spine spineType path)
  | .text position content => .ok (.text position content)
  | _ => .error .typeError

/-- The state of one matplotlib axes that `splitAxes` reads or writes.
The defaults are the state of a fresh subplot: limits `(0, 1)`, linear
scales, all four spines visible, bottom and left ticks shown. -/
structure Axes where
  children : List Artist := []
  xlim : ℚ × ℚ := (0, 1)
  ylim : ℚ × ℚ := (0, 1)
  xscale : Scale := .linear
  yscale : Scale := .linear
  xlabel : String := ""
  ylabel : String := ""
  title : String := ""
  tickBottom : Bool := true
  labelBottom : Bool := true
  tickTop : Bool := false
  tickLeft : Bool := true
  labelLeft : Bool := true
  tickRight : Bool := false
  spineBottomVisible : Bool := true
  spineTopVisible : Bool := true
  spineLeftVisible : Bool := true
  spineRightVisible : Bool := true
  xticksPosition : String := "bottom"
  yticksPosition : String := "left"
  markers : List (ℚ × ℚ) := []
deriving Repr, DecidableEq

/-- The state of a matplotlib figure that `splitAxes` reads or writes. -/
structure Figure where
  axes : List Axes := []
  hspace : Option ℚ := none
  wspace : Option ℚ := none
  supxlabel : Option String := none
  supylabel : Option String := none
  suptitle : Option String := none
  savedTo : Option (String × String) := none
deriving Repr, DecidableEq

/-- The ratio padding of `SplitPlotUtils.py` lines 116-123: when fewer
ratios than cells are supplied the list is extended by equal shares
`(1 - sum(ratio)) / (count - len(ratio))`. -/
def padRatio (ratio : List ℚ) (count : ℕ) : List ℚ :=
  if ratio.length < count then
    ratio ++ List.replicate (count - ratio.length)
      ((1 - ratio.sum) / ((count : ℚ) - (ratio.length : ℚ)))
  else ratio

/-- `figure.axes[k]` read, update, write back: the mutation of one
subplot inside the loops of `splitAxes`.  Out of range raises
IndexError, as Python list indexing does. -/
def setAt (axs : List Axes) (k : ℕ) (f : Axes → Except PyErr Axes) :
    Except PyErr (List Axes) :=
  if h : k < axs.length then do
    let ax ← f axs[k]
    .ok (axs.set k ax)
  else .error .indexError

/-- The nested `for i ... for j ...` loops of `splitAxes`: each pair
`(i, j)` updates `newFigure.axes[i + j * rowCount]` in order.  This is
the indexing the source uses on a figure whose subplots are laid out
row-major by `PyPlot.subplots(rowCount, columnCount)`. -/
def runCells (rowCount : ℕ) (f : ℕ → ℕ → Axes → Except PyErr Axes) :
    List (ℕ × ℕ) → List Axes → Except PyErr (List Axes)
  | [], axs => .ok axs
  | ij :: rest, axs => do
    let axs2 ← setAt axs (ij.1 + ij.2 * rowCount) (f ij.1 ij.2)
    runCells rowCount f rest axs2

/-- The clones `splitAxes` adds to one subplot (lines 144-148): every
child of the source axes that is not an `Axis`, `Patch`, `Spine` or
`Text` is passed to `cloneArtist`, in order. -/
def clonesOf (artists : List Artist) : Except PyErr (List Artist) :=
  (artists.filter
    (fun a => !(a.isAxis || a.isPatch || a.isSpine || a.isText))).mapM
    (fun a => cloneArtist a (some ()))

/-- The pure part of the first loop body of `splitAxes` (lines 149-171)
once the clones are known: limits, scales, tick parameters, spine
visibility and tick positions for the cell at column `i`, row `j`. -/
def cellApply (clones : List Artist) (axes0 : Axes)
    (xSubranges ySubrangesRev : List (ℚ × ℚ)) (columnCount rowCount i j : ℕ)
    (ax : Axes) : Axes :=
  { ax with
    children := ax.children ++ clones,
    xlim := if h : 0 < xSubranges.length ∧ i < xSubranges.length then
        xSubranges[i] else axes0.xlim,
    ylim := if h : 0 < ySubrangesRev.length ∧ j < ySubrangesRev.length then
        ySubrangesRev[j] else axes0.ylim,
    xscale := axes0.xscale,
    yscale := axes0.yscale,
    tickBottom := j == rowCount - 1,
    labelBottom := j == rowCount - 1,
    tickTop := false,
    tickLeft := i == 0,
    labelLeft := i == 0,
    tickRight := false,
    spineBottomVisible := j == rowCount - 1,
    spineTopVisible := j == 0,
    spineLeftVisible := i == 0,
    spineRightVisible := i == columnCount - 1,
    xticksPosition := if j == rowCount - 1 then "bottom" else "none",
    yticksPosition := if i == 0 then "left" else "none" }

/-- The first loop body of `splitAxes` (lines 144-171): clone the
children, then apply the per-cell settings. -/
def cellUpdate (axes0 : Axes) (xSubranges ySubrangesRev : List (ℚ × ℚ))
    (columnCount rowCount i j : ℕ) (ax : Axes) : Except PyErr Axes := do
  let clones ← clonesOf axes0.children
  .ok (cellApply clones axes0 xSubranges ySubrangesRev columnCount rowCount
        i j ax)

/-- The second loop body of `splitAxes` (lines 177-191): the slanted
break markers plotted at the axes-coordinate corners, selected by the
four XOR tests on the grid position. -/
def markerUpdate (columnCount rowCount i j : ℕ) (ax : Axes) : Axes :=
  let m1 : List (ℚ × ℚ) :=
    if (decide (0 < i)).xor (decide (j < rowCount - 1)) then [(0, 0)] else []
  let m2 : List (ℚ × ℚ) :=
    if (decide (i < columnCount - 1)).xor (decide (j < rowCount - 1)) then
      [(1, 0)] else []
  let m3 : List (ℚ × ℚ) :=
    if (i == 0).xor (j == 0) then [(0, 1)] else []
  let m4 : List (ℚ × ℚ) :=
    if (decide (i < columnCount - 1)).xor (decide (0 < j)) then [(1, 1)]
    else []
  { ax with markers := ax.markers ++ m1 ++ m2 ++ m3 ++ m4 }

/-- `splitAxes` from `SplitPlotUtils.py` lines 66-203.  A figure with no
axes is returned unchanged.  Otherwise `PyPlot.subplots(rowCount,
columnCount, gridspec_kw = ...)` creates `rowCount * columnCount` fresh
subplots in row-major order (gridspec rejects ratio lists whose length
is not the cell count), the two nested loops mutate
`newFigure.axes[i + j * rowCount]`, and the figure-level labels and the
optional file export follow. -/
def splitAxes (figure : Figure) (filename : String := "")
    (fileFormat : String := "png") (xSubranges : List (ℚ × ℚ) := [])
    (ySubranges : List (ℚ × ℚ) := []) (xRatio : List ℚ := [])
    (yRatio : List ℚ := []) (xSpacing : ℚ := 5/100)
    (ySpacing : ℚ := 5/100) : Except PyErr Figure :=
  match figure.axes.head? with
  | none => .ok figure
  | some axes0 =>
    -- Determine the number of column and row
    let columnCount := max xSubranges.length 1
    let rowCount := max ySubranges.length 1
    let xRatio := padRatio xRatio columnCount
    let yRatio := padRatio yRatio rowCount
    -- Inverse the parameter order for the vertical axis
    let ySubrangesRev := ySubranges.reverse
    let yRatio := yRatio.reverse
    -- Draw a new figure with the specified layout
    if xRatio.length = columnCount ∧ yRatio.length = rowCount then do
      let initAxes := List.replicate (rowCount * columnCount) ({} : Axes)
      let pairs := (List.range columnCount).flatMap
        (fun i => (List.range rowCount).map (fun j => (i, j)))
      -- Add artists in the existing plot to each subplot in the new plot
      let axs ← runCells rowCount
        (cellUpdate axes0 xSubranges ySubrangesRev columnCount rowCount)
        pairs initAxes
      -- Add slanted lines on the axes
      let axs ← runCells rowCount
        (fun i j ax => .ok (markerUpdate columnCount rowCount i j ax))
        pairs axs
      .ok { axes := axs,
            hspace := if columnCount ≠ 0 then some ySpacing else none,
            wspace := if rowCount ≠ 0 then some xSpacing else none,
            supxlabel := some axes0.xlabel,
            supylabel := some axes0.ylabel,
            suptitle := if 0 < axes0.title.length then some axes0.title
                        else none,
            savedTo := if 0 < filename.length then some (filename, fileFormat)
                       else none }
    else .error .valueError

/-! ## Concrete figures used by the evaluation theorems -/

/-- A figure holding one fresh axes with no artists. -/
def figW : Figure := { axes := [{}] }

/-- A figure holding one axes with distinctive limits, so that inherited
and assigned limits are distinguishable in the split result. -/
def fig3 : Figure := { axes := [{ xlim := (100, 200), ylim := (300, 400) }] }

/-- A figure holding one axes that carries a rectangle, a text, a spine
and a 2-D line. -/
def figC2 : Figure :=
  { axes := [{ children := [.rectangle (0, 0) 1 1, .text (0, 0) "t",
               .spine "left" [], .line2D [1, 2] [3, 4] "r"] }] }

/-- A small non-empty rectangular matrix with a `None` hole. -/
def ZW : List (List (Option RVal)) :=
  [[some (.fin 1), none], [some (.fin 2), some (.fin 3)]]

/-- The figure a 1-by-1 `splitAxes` of `figW` produces when saving to
`out.png`. -/
def FW : Figure :=
  { axes := [{}], hspace := some 2, wspace := some 1,
    supxlabel := some "", supylabel := some "", suptitle := none,
    savedTo := some ("out.png", "png") }

/-! ## Claim theorems -/

/-- C10: whenever fewer ratios than cells are supplied
(`ratio.length < count`), the padded ratio list has length exactly
`count` and, in exact arithmetic, sums to exactly 1, whatever the
supplied entries sum to. -/
theorem padRatio_pads (ratio : List ℚ) (count : ℕ)
    (h : ratio.length < count) :
    (padRatio ratio count).length = count ∧ (padRatio ratio count).sum = 1 := by
  have hlt : (ratio.length : ℚ) < (count : ℚ) := by exact_mod_cast h
  have hk : (count : ℚ) - (ratio.length : ℚ) ≠ 0 := by linarith
  constructor
  · simp only [padRatio, if_pos h, List.length_append, List.length_replicate]
    omega
  · simp only [padRatio, if_pos h, List.sum_append, List.sum_replicate,
      nsmul_eq_mul]
    have hcast : ((count - ratio.length : ℕ) : ℚ)
        = (count : ℚ) - (ratio.length : ℚ) := Nat.cast_sub h.le
    rw [hcast]
    field_simp

/-- C10 witness: a supplied ratio list summing to more than 1 is padded
to length 3 and still sums to exactly 1. -/
theorem padRatio_pads_witness :
    ([(2 : ℚ)].length < 3) ∧ ((padRatio [(2 : ℚ)] 3).length = 3
      ∧ (padRatio [(2 : ℚ)] 3).sum = 1) :=
  ⟨by decide, padRatio_pads [(2 : ℚ)] 3 (by decide)⟩

/-- C5: `cloneArtist` is a fixed case analysis over artist kinds.  For a
path collection, an axis, a 2-D line, a rectangle, a spine or a text
element (called, as `splitAxes` does, with an axes to attach to) it
returns a newly constructed artist of the same kind; for any other
artist it raises TypeError. -/
theorem cloneArtist_cases (a : Artist) (ax : Unit) :
    (cloneSupported a = true →
      ∃ b, cloneArtist a (some ax) = .ok b ∧ b.kind = a.kind) ∧
    (cloneSupported a = false →
      cloneArtist a (some ax) = .error .typeError) := by
  cases a <;> simp [cloneArtist, cloneSupported, Artist.kind]

/-- C5 witness: a 2-D line is cloned to a 2-D line; a line collection
(a `Collection` that is not a `PathCollection`) raises TypeError. -/
theorem cloneArtist_cases_witness :
    (∃ b, cloneArtist (.line2D [1] [2] "r") (some ()) = .ok b
       ∧ b.kind = (Artist.line2D [1] [2] "r").kind) ∧
    cloneArtist .lineCollection (some ()) = .error .typeError :=
  ⟨(cloneArtist_cases (.line2D [1] [2] "r") ()).1 (by decide),
   (cloneArtist_cases .lineCollection ()).2 (by decide)⟩

/-- C6: whenever `contour2D`'s up-front validation fails (`X` empty, `Y`
empty, `len(X) != len(Z)` or `len(Y) != len(Z[0])`), it returns the
newly created blank figure at once: no contour, colorbar, scale, limit
or label is applied and no file is saved, whatever `filename` is. -/
theorem contour2D_validation (X Y : List ℚ) (Z : List (List ℚ))
    (filename : String) (xLog yLog : Bool)
    (xlim ylim fillRange : Option (ℚ × ℚ))
    (xLabel yLabel fillLabel : String) (ftc : ℕ) (fls : Bool) (flsb : ℕ)
    (h : contourArgsInvalid X Y Z = true) :
    contour2D X Y Z filename xLog yLog xlim ylim fillRange xLabel yLabel
      fillLabel ftc fls flsb = .ok ({} : CFigure) := by
  simp [contour2D, h]

/-- C6 witness: empty `X` with a non-empty filename still yields the
blank figure, on which nothing is drawn and nothing is saved. -/
theorem contour2D_validation_witness :
    contourArgsInvalid [] [(1 : ℚ)] [] = true ∧
    contour2D [] [(1 : ℚ)] [] "out.png" false false none none none "x" "y"
      "" 11 false 2 = .ok ({} : CFigure) ∧
    ({} : CFigure).savedTo = none ∧ ({} : CFigure).contour = none :=
  ⟨by decide,
   contour2D_validation [] [(1 : ℚ)] [] "out.png" false false none none none
     "x" "y" "" 11 false 2 (by decide),
   rfl, rfl⟩

/-- C1 (failing input): a figure with one axes split into two vertical
subranges (two rows, one column) does not yield a 2-by-1 grid figure:
the loop indexes `newFigure.axes[i + j * rowCount] = axes[2]` in a
2-element list and raises IndexError. -/
theorem splitAxes_rowSplit_indexError :
    splitAxes figW "" "png" [] [(0, 1), (2, 3)] [] [] (1/20) (1/20)
      = .error .indexError := by decide

/-- C3 (failing input): splitting one axes (original x-limits
`(100, 200)`) into three x-subranges and two y-subranges returns a
6-subplot figure whose x-limits, read row-major, are not
`xSubranges[column]`: row 1 receives `[(12,13), (14,15), (0,1)]`
instead of `[(10,11), (12,13), (14,15)]`, the last subplot keeping the
untouched fresh-subplot default `(0, 1)`. -/
theorem splitAxes_mixedGrid_wrongLimits :
    (splitAxes fig3 "" "png" [(10, 11), (12, 13), (14, 15)]
        [(0, 1), (2, 3)] [] [] (1/20) (1/20)).map
      (fun f => f.axes.map (fun a => a.xlim))
      = .ok [(10, 11), (12, 13), (14, 15), (12, 13), (14, 15), (0, 1)] := by
  decide

/-- C4 (failing input): a split into three rows and one column never
reaches the break-marker placement: the subplot loop raises IndexError
(`axes[0 + 1 * 3]` in a 3-element list), so no markers are placed at
the horizontal seams. -/
theorem splitAxes_threeRows_indexError :
    splitAxes figW "" "png" [] [(0, 1), (2, 3), (4, 5)] [] [] (1/20) (1/20)
      = .error .indexError := by decide

/-- C2 (counterexample): the axes of `figC2` carries a rectangle, a
text, a spine and a 2-D line, yet after a split into two columns every
subplot holds a clone of the line only — rectangles, text and spines
are filtered out before `cloneArtist` is called, not duplicated. -/
theorem splitAxes_drops_rect_text_spine :
    (splitAxes figC2 "" "png" [(10, 11), (12, 13)] [] [] [] (1/20)
        (1/20)).map (fun f => f.axes.map (fun a => a.children))
      = .ok [[.line2D [1, 2] [3, 4] "r"], [.line2D [1, 2] [3, 4] "r"]] := by
  decide

/-! ## Helper lemmas -/

/-- A `mapM` whose steps all succeed is the `map` of the step results. -/
lemma mapM_ok_of_forall {ε α β : Type _} (l : List α) (f : α → Except ε β)
    (g : α → β) (h : ∀ a ∈ l, f a = .ok (g a)) :
    l.mapM f = .ok (l.map g) := by
  induction l with
  | nil => rfl
  | cons a t ih =>
    rw [List.mapM_cons, h a (List.mem_cons_self a t),
        ih (fun b hb => h b (List.mem_cons_of_mem a hb))]
    rfl

/-- In-range Python indexing returns the element. -/
lemma pyGet_ok {α : Type _} (l : List α) (i : ℕ) (h : i < l.length) (d : α) :
    pyGet l i = .ok (l.getD i d) := by
  simp [pyGet, h, List.getD_eq_getElem _ _ h]

/-- On a matrix whose rows all reach `len(Z[0])`, the row construction of
`heatmap2D` (transpose off) succeeds and is the pointwise transpose with
`None` mapped to NaN. -/
lemma heatmapRows_ok (Z : List (List (Option RVal)))
    (h : ∀ row ∈ Z, (Z.headD []).length ≤ row.length) :
    (List.range (Z.headD []).length).mapM
        (fun i => Z.mapM (fun z => (pyGet z i).map toNan))
      = .ok ((List.range (Z.headD []).length).map
          (fun i => Z.map (fun z => toNan (z.getD i none)))) := by
  apply mapM_ok_of_forall
  intro i hi
  apply mapM_ok_of_forall
  intro z hz
  have hiz : i < z.length := lt_of_lt_of_le (List.mem_range.mp hi) (h z hz)
  rw [pyGet_ok z i hiz none]
  rfl

/-- On a matrix whose rows all reach `len(Z[0])`, the row construction of
`contour2D` succeeds and is the pointwise transpose. -/
lemma contourRows_ok (Z : List (List ℚ))
    (h : ∀ row ∈ Z, (Z.headD []).length ≤ row.length) :
    (List.range (Z.headD []).length).mapM (fun i => Z.mapM (fun z => pyGet z i))
      = .ok ((List.range (Z.headD []).length).map
          (fun i => Z.map (fun z => z.getD i 0))) := by
  apply mapM_ok_of_forall
  intro i hi
  apply mapM_ok_of_forall
  intro z hz
  exact pyGet_ok z i (lt_of_lt_of_le (List.mem_range.mp hi) (h z hz)) 0

/-- The per-value finiteness test of `filterFinite` holds exactly on
values that are neither infinity. -/
lemma keep_eq_notInf (v : RVal) :
    (pyNe v RVal.pinf && pyNe v RVal.ninf) = !(isInfiniteVal v) := by
  cases v <;> rfl

/-- `maskSelect` on an empty mask list selects nothing. -/
lemma maskSelect_nil (l : List RVal) : maskSelect l [] = [] := by
  cases l <;> rfl

/-- One step of `maskSelect`. -/
lemma maskSelect_cons (a : RVal) (l : List RVal) (m : Bool) (ms : List Bool) :
    maskSelect (a :: l) (m :: ms)
      = if m then a :: maskSelect l ms else maskSelect l ms := by
  simp only [maskSelect, List.zip_cons_cons, List.filter_cons]
  cases m <;> simp

/-- Selecting by a pointwise mask built from the list itself is `filter`. -/
lemma maskSelect_map (f : RVal → Bool) :
    ∀ l : List RVal, maskSelect l (l.map f) = l.filter f := by
  intro l
  induction l with
  | nil => rfl
  | cons a t ih => rw [List.map_cons, maskSelect_cons, ih, List.filter_cons]

/-- The double masked selection of `scatter`, on equal-length lists, has
equal-length results and zips to the filtered zip of the inputs. -/
lemma maskSelect_zip_filter (f g : RVal → Bool) :
    ∀ (x y : List RVal), x.length = y.length →
    (maskSelect x ((List.zip (x.map f) (y.map g)).map
        (fun p => p.1 && p.2))).length
      = (maskSelect y ((List.zip (x.map f) (y.map g)).map
          (fun p => p.1 && p.2))).length
    ∧ List.zip
        (maskSelect x ((List.zip (x.map f) (y.map g)).map
          (fun p => p.1 && p.2)))
        (maskSelect y ((List.zip (x.map f) (y.map g)).map
          (fun p => p.1 && p.2)))
      = (List.zip x y).filter (fun p => f p.1 && g p.2) := by
  intro x
  induction x with
  | nil =>
    intro y h
    simp [maskSelect]
  | cons a xt ih =>
    intro y h
    cases y with
    | nil => simp at h
    | cons b yt =>
      have h2 : xt.length = yt.length := by simpa using h
      obtain ⟨ihl, ihz⟩ := ih yt h2
      simp only [List.map_cons, List.zip_cons_cons, maskSelect_cons,
        List.filter_cons]
      cases hab : f a && g b with
      | true => simp [hab, List.zip_cons_cons, ihl, ihz]
      | false => simp [hab, ihl, ihz]

/-- C8: `scatter` and `hist` exclude infinite values and only infinite
values before plotting.  For equal-length `x`, `y`, the plotted pair
lists have equal length and zip to exactly the input pairs in which
neither coordinate is an infinity, kept in order (so NaN survives the
filter); `hist` plots exactly the non-infinite entries of its list. -/
theorem scatter_hist_excludeInfinite (x y : List RVal)
    (h : x.length = y.length) :
    ∃ xs ys : List RVal,
      ((scatter x y).axes.headD {}).scatters
        = [{ xs := xs, ys := ys, colors := none, marker := "o",
             dataLabel := none }] ∧
      xs.length = ys.length ∧
      List.zip xs ys = (List.zip x y).filter
        (fun p => !(isInfiniteVal p.1 || isInfiniteVal p.2)) ∧
      ((hist x).axes.headD {}).hists
        = [(x.filter (fun v => !(isInfiniteVal v)), 10, none)] := by
  have hsel := maskSelect_zip_filter
    (fun X => pyNe X RVal.pinf && pyNe X RVal.ninf)
    (fun X => pyNe X RVal.pinf && pyNe X RVal.ninf) x y h
  refine ⟨_, _, rfl, hsel.1, ?_, ?_⟩
  · simp only [filterFinite]
    rw [hsel.2]
    apply List.filter_congr
    intro p _
    simp only [keep_eq_notInf, Bool.not_or]
  · show [(maskSelect x (filterFinite x), 10, (none : Option String))] = _
    rw [show filterFinite x
          = x.map (fun X => pyNe X RVal.pinf && pyNe X RVal.ninf) from rfl,
        maskSelect_map,
        List.filter_congr (fun v _ => keep_eq_notInf v)]

/-- C8 witness: with an infinity in `x`, the infinite pair is removed
and the NaN pair kept, in order, for both `scatter` and `hist`. -/
theorem scatter_hist_excludeInfinite_witness :
    ∃ xs ys : List RVal,
      ((scatter [.fin 1, .pinf, .nan] [.fin 2, .fin 3, .fin 4]).axes.headD
          {}).scatters
        = [{ xs := xs, ys := ys, colors := none, marker := "o",
             dataLabel := none }] ∧
      xs.length = ys.length ∧
      List.zip xs ys
        = (List.zip [RVal.fin 1, RVal.pinf, RVal.nan]
            [RVal.fin 2, RVal.fin 3, RVal.fin 4]).filter
            (fun p => !(isInfiniteVal p.1 || isInfiniteVal p.2)) ∧
      ((hist [.fin 1, .pinf, .nan]).axes.headD {}).hists
        = [([RVal.fin 1, RVal.pinf, RVal.nan].filter
             (fun v => !(isInfiniteVal v)), 10, none)] :=
  scatter_hist_excludeInfinite [.fin 1, .pinf, .nan]
    [.fin 2, .fin 3, .fin 4] (by decide)

/-- C9: on a non-empty rectangular matrix `Z`, `heatmap2D` renders the
transpose of `Z` when `transpose` is off — the rendered row `i` is
`[Z[0][i], Z[1][i], ...]`, so the element at row `i`, column `j` is
`Z[j][i]` — and renders `Z` unchanged when `transpose` is on; in both
cases every `None` entry becomes NaN. -/
theorem heatmap2D_transposeSemantics (Z : List (List (Option RVal)))
    (X Y : Option (List (Option ℚ))) (filename : String)
    (invX invY : Bool) (pal colNA : String) (xL yL fL : Option String)
    (flog : Bool) (rX rY : ℚ)
    (h0 : 0 < Z.length) (h1 : 0 < (Z.headD []).length)
    (hrect : ∀ row ∈ Z, row.length = (Z.headD []).length) :
    (heatmap2D Z X Y filename invX invY false pal colNA xL yL fL flog rX
        rY).map (fun f => f.image)
      = .ok (some ((List.range (Z.headD []).length).map
          (fun i => Z.map (fun z => toNan (z.getD i none))))) ∧
    (heatmap2D Z X Y filename invX invY true pal colNA xL yL fL flog rX
        rY).map (fun f => f.image)
      = .ok (some (Z.map (fun V => V.map toNan))) ∧
    (∀ i j, i < (Z.headD []).length → j < Z.length →
      (((List.range (Z.headD []).length).map
          (fun i => Z.map (fun z => toNan (z.getD i none)))).getD i
            []).getD j .nan
        = toNan ((Z.getD j []).getD i none)) := by
  have hne : heatmapArgsEmpty Z = false := by
    simp only [heatmapArgsEmpty, Bool.or_eq_false_iff, beq_eq_false_iff_ne]
    omega
  refine ⟨?_, ?_, ?_⟩
  · rw [heatmap2D]
    simp only [hne, Bool.false_eq_true, if_false]
    rw [heatmapRows_ok Z (fun row hr => le_of_eq (hrect row hr).symm)]
    rfl
  · rw [heatmap2D]
    simp only [hne, Bool.false_eq_true, if_false]
    rfl
  · intro i j hi hj
    have hi2 : i < ((List.range (Z.headD []).length).map
        (fun i => Z.map (fun z => toNan (z.getD i none)))).length := by
      simpa using hi
    rw [List.getD_eq_getElem _ _ hi2, List.getElem_map, List.getElem_range]
    have hj2 : j < (Z.map (fun z => toNan (z.getD i none))).length := by
      simpa using hj
    rw [List.getD_eq_getElem _ _ hj2, List.getElem_map,
        List.getD_eq_getElem _ _ hj]

/-- C9 witness: on `ZW`, transpose off renders the transpose with the
hole as NaN, transpose on renders the matrix unchanged. -/
theorem heatmap2D_transposeSemantics_witness :
    (heatmap2D ZW none none "" false true false "viridis" "white" none none
        none false 45 0).map (fun f => f.image)
      = .ok (some [[.fin 1, .fin 2], [.nan, .fin 3]]) ∧
    (heatmap2D ZW none none "" false true true "viridis" "white" none none
        none false 45 0).map (fun f => f.image)
      = .ok (some [[.fin 1, .nan], [.fin 2, .fin 3]]) :=
  ⟨((heatmap2D_transposeSemantics ZW none none "" false true "viridis"
      "white" none none none false 45 0 (by decide) (by decide)
      (by decide)).1).trans (by decide),
   ((heatmap2D_transposeSemantics ZW none none "" false true "viridis"
      "white" none none none false 45 0 (by decide) (by decide)
      (by decide)).2.1).trans (by decide)⟩

/-- C7 (counterexample): `contour2D` called with empty `X` and the
non-empty filename `out.png` writes no file — export is not governed by
the filename alone. -/
theorem contour2D_skipsSave_onInvalid :
    (contour2D [] [(1 : ℚ)] [] "out.png" false false none none none "x"
        "y" "" 11 false 2).map (fun f => f.savedTo) = .ok none ∧
    0 < "out.png".length := by
  constructor
  · decide
  · decide

/-- C7 (amended): on the drawing path a file is written exactly when
`filename` is non-empty — unconditionally for `scatter` and `hist`; for
`contour2D` and `heatmap2D` when their up-front validation passes, and
never when it fails; for `splitAxes`, when the input figure has axes
and the split returns a figure (an input figure without axes is handed
back unchanged, so nothing is saved by the call). -/
theorem savefig_iff_filename :
    (∀ x y filename transform labels colors marker xlim ylim xLog yLog
        xLabel yLabel dataLabel legend legendTitle append fileFormat,
      (scatter x y filename transform labels colors marker xlim ylim xLog
          yLog xLabel yLabel dataLabel legend legendTitle append
          fileFormat).savedTo
        = if 0 < filename.length then some (filename, fileFormat)
          else none) ∧
    (∀ x filename transform binCount color xlim ylim,
      (hist x filename transform binCount color xlim ylim).savedTo
        = if 0 < filename.length then some (filename, "png") else none) ∧
    (∀ X Y Z filename xLog yLog xlim ylim fillRange xLabel yLabel
        fillLabel ftc fls flsb,
      (∀ row ∈ Z, (Z.headD []).length ≤ row.length) →
      (contour2D X Y Z filename xLog yLog xlim ylim fillRange xLabel
          yLabel fillLabel ftc fls flsb).map (fun f => f.savedTo)
        = .ok (if contourArgsInvalid X Y Z then none
               else if 0 < filename.length then some (filename, "png")
               else none)) ∧
    (∀ Z X Y filename invX invY transpose pal colNA xL yL fL flog rX rY,
      (∀ row ∈ Z, (Z.headD []).length ≤ row.length) →
      (heatmap2D Z X Y filename invX invY transpose pal colNA xL yL fL
          flog rX rY).map (fun f => f.savedTo)
        = .ok (if heatmapArgsEmpty Z then none
               else if 0 < filename.length then some (filename, "png")
               else none)) ∧
    (∀ figure filename fileFormat xSubranges ySubranges xRatio yRatio
        xSpacing ySpacing f,
      splitAxes figure filename fileFormat xSubranges ySubranges xRatio
          yRatio xSpacing ySpacing = .ok f →
      f.savedTo = if figure.axes.isEmpty then figure.savedTo
                  else if 0 < filename.length then
                    some (filename, fileFormat)
                  else none) := by
  refine ⟨fun _ _ _ _ _ _ _ _ _ _ _ _ _ _ _ _ _ _ => rfl,
          fun _ _ _ _ _ _ _ => rfl, ?_, ?_, ?_⟩
  · intro X Y Z filename xLog yLog xlim ylim fillRange xLabel yLabel
      fillLabel ftc fls flsb hrect
    cases hinv : contourArgsInvalid X Y Z with
    | true => rw [contour2D]; simp [hinv, Except.map]
    | false =>
      rw [contour2D]
      simp only [hinv, Bool.false_eq_true, if_false]
      rw [contourRows_ok Z hrect]
      rfl
  · intro Z X Y filename invX invY transpose pal colNA xL yL fL flog rX
      rY hrect
    cases hne : heatmapArgsEmpty Z with
    | true => rw [heatmap2D]; simp [hne, Except.map]
    | false =>
      rw [heatmap2D]
      simp only [hne, Bool.false_eq_true, if_false]
      cases transpose with
      | true => rfl
      | false =>
        rw [heatmapRows_ok Z hrect]
        rfl
  · intro figure filename fileFormat xSubranges ySubranges xRatio yRatio
      xSpacing ySpacing f hok
    obtain ⟨faxes, fh, fw, fsx, fsy, fst, fsv⟩ := figure
    cases faxes with
    | nil =>
      rw [splitAxes] at hok
      simp only at hok
      cases hok
      rfl
    | cons a t =>
      rw [splitAxes] at hok
      simp only [List.head?_cons] at hok
      split at hok
      · cases h1 : runCells (max ySubranges.length 1)
          (cellUpdate a xSubranges ySubranges.reverse
            (max xSubranges.length 1) (max ySubranges.length 1))
          ((List.range (max xSubranges.length 1)).flatMap
            (fun i => (List.range (max ySubranges.length 1)).map
              (fun j => (i, j))))
          (List.replicate
            (max ySubranges.length 1 * max xSubranges.length 1) {}) with
        | ok axs1 =>
          rw [h1] at hok
          simp only [bind, Except.bind] at hok
          cases h2 : runCells (max ySubranges.length 1)
            (fun i j ax => .ok (markerUpdate (max xSubranges.length 1)
              (max ySubranges.length 1) i j ax))
            ((List.range (max xSubranges.length 1)).flatMap
              (fun i => (List.range (max ySubranges.length 1)).map
                (fun j => (i, j)))) axs1 with
          | ok axs2 =>
            rw [h2] at hok
            simp only [bind, Except.bind, Except.ok.injEq] at hok
            rw [← hok]
            rfl
          | error e =>
            rw [h2] at hok
            simp [bind, Except.bind] at hok
        | error e =>
          rw [h1] at hok
          simp [bind, Except.bind] at hok
      · cases hok

/-- C7 witness: a non-empty filename writes the file on the drawing path
(`scatter`, valid `contour2D`, non-degenerate `splitAxes`), and an
empty filename writes nothing (`hist`, `heatmap2D`). -/
theorem savefig_iff_filename_witness :
    (scatter [RVal.fin 1] [RVal.fin 2] "out.png" none none none "o" none
        none false false none none none false none none "png").savedTo
      = some ("out.png", "png") ∧
    (hist [RVal.fin 1] "" none 10 none none none).savedTo = none ∧
    (contour2D [1] [2] [[3]] "c.png" false false none none none "x" "y"
        "" 11 false 2).map (fun f => f.savedTo)
      = .ok (some ("c.png", "png")) ∧
    (heatmap2D ZW none none "" false true false "viridis" "white" none
        none none false 45 0).map (fun f => f.savedTo) = .ok none ∧
    FW.savedTo = some ("out.png", "png") := by
  refine ⟨(savefig_iff_filename.1 [RVal.fin 1] [RVal.fin 2] "out.png" none
      none none "o" none none false false none none none false none none
      "png").trans (by decide),
    (savefig_iff_filename.2.1 [RVal.fin 1] "" none 10 none none
      none).trans (by decide),
    (savefig_iff_filename.2.2.1 [1] [2] [[3]] "c.png" false false none
      none none "x" "y" "" 11 false 2 (by decide)).trans (by decide),
    (savefig_iff_filename.2.2.2.1 ZW none none "" false true false
      "viridis" "white" none none none false 45 0 (by decide)).trans
      (by decide),
    (savefig_iff_filename.2.2.2.2 figW "out.png" "png" [] [] [] [] 1 2
      FW (by decide)).trans (by decide)⟩

/-- Writing a slot leaves `getD` at that slot with the value written. -/
lemma getD_set_self {α : Type _} (l : List α) (i : ℕ) (v d : α)
    (hi : i < l.length) : (l.set i v).getD i d = v := by
  rw [List.getD_eq_getElem _ _ (by rw [List.length_set]; exact hi)]
  exact List.getElem_set_self _

/-- Writing a slot leaves `getD` at other slots unchanged. -/
lemma getD_set_ne {α : Type _} (l : List α) (i k : ℕ) (v d : α)
    (hki : k ≠ i) : (l.set i v).getD k d = l.getD k d := by
  by_cases hk : k < l.length
  · rw [List.getD_eq_getElem _ _ (by rw [List.length_set]; exact hk),
        List.getD_eq_getElem _ _ hk]
    exact List.getElem_set_ne (fun h => hki h.symm) _
  · rw [List.getD_eq_default _ _ (by rw [List.length_set]; omega),
        List.getD_eq_default _ _ (by omega)]

/-- Padding an empty ratio list yields one share per cell. -/
lemma padRatio_nil_length (n : ℕ) (hn : 0 < n) :
    (padRatio [] n).length = n := by
  simp [padRatio, hn]

/-- A single-row pass of the `splitAxes` loops: over distinct column
indices paired with row `0`, with every step succeeding, the run
succeeds, the length is kept, each visited slot holds the step result
applied to its old value, and other slots are untouched. -/
lemma runCells_nodup (F : ℕ → ℕ → Axes → Except PyErr Axes)
    (G : ℕ → Axes → Axes) (hFG : ∀ i ax, F i 0 ax = .ok (G i ax)) :
    ∀ (l : List ℕ) (axs : List Axes), l.Nodup →
    (∀ i ∈ l, i < axs.length) →
    ∃ axs2, runCells 1 F (l.map (fun i => (i, 0))) axs = .ok axs2 ∧
      axs2.length = axs.length ∧
      (∀ k ∈ l, axs2.getD k {} = G k (axs.getD k {})) ∧
      (∀ k, k ∉ l → axs2.getD k {} = axs.getD k {}) := by
  intro l
  induction l with
  | nil =>
    intro axs _ _
    exact ⟨axs, rfl, rfl, fun k hk => absurd hk (List.not_mem_nil k),
      fun _ _ => rfl⟩
  | cons i t ih =>
    intro axs hnd hlt
    have hi : i < axs.length := hlt i (List.mem_cons_self i t)
    have hit : i ∉ t := (List.nodup_cons.mp hnd).1
    have hstep : setAt axs (i + 0 * 1) (F i 0)
        = .ok (axs.set i (G i (axs.getD i {}))) := by
      simp [setAt, hi, hFG, bind, Except.bind,
        List.getD_eq_getElem _ _ hi]
    obtain ⟨axs2, hrun, hlen, hmem, hnot⟩ :=
      ih (axs.set i (G i (axs.getD i {}))) (List.Nodup.of_cons hnd)
        (fun j hj => by
          rw [List.length_set]
          exact hlt j (List.mem_cons_of_mem i hj))
    refine ⟨axs2, ?_, ?_, ?_, ?_⟩
    · have hunf : runCells 1 F ((i :: t).map (fun j => (j, 0))) axs
          = (setAt axs (i + 0 * 1) (F i 0)) >>=
            runCells 1 F (t.map (fun j => (j, 0))) := rfl
      rw [hunf, hstep]
      exact hrun
    · rw [hlen, List.length_set]
    · intro k hk
      rcases List.mem_cons.mp hk with hki | hkt
      · subst hki
        rw [hnot k hit, getD_set_self axs k _ _ hi]
      · have hk2 : k ≠ i := fun h => hit (h ▸ hkt)
        rw [hmem k hkt, getD_set_ne axs i k _ _ hk2]
    · intro k hk
      have hki : k ≠ i := fun h => hk (h ▸ List.mem_cons_self i t)
      have hkt : k ∉ t := fun h => hk (List.mem_cons_of_mem i h)
      rw [hnot k hkt, getD_set_ne axs i k _ _ hki]

/-- Flattening singleton column-row pairs is a map. -/
lemma flatMap_pairZero (l : List ℕ) :
    (l.flatMap (fun i => [(i, (0 : ℕ))])) = l.map (fun i => (i, 0)) := by
  induction l with
  | nil => rfl
  | cons a t ih => simp [List.flatMap_cons, ih]

/-- C2 (amended): on a single-row grid (at most one y-subrange), when
every unfiltered child of the first axes is cloneable, `splitAxes`
places onto every subplot of the new figure exactly the clones
`cloneArtist` makes of the children that are not axis, patch
(rectangle), spine or text artists — its 2-D lines and path
collections. -/
theorem splitAxes_rowGrid_clones (fig : Figure) (axes0 : Axes)
    (rest : List Axes) (xSubranges ySubranges : List (ℚ × ℚ))
    (filename fileFormat : String) (xSpacing ySpacing : ℚ)
    (cs : List Artist)
    (hax : fig.axes = axes0 :: rest)
    (hrow : ySubranges.length ≤ 1)
    (hcl : clonesOf axes0.children = .ok cs) :
    ∃ f, splitAxes fig filename fileFormat xSubranges ySubranges [] []
        xSpacing ySpacing = .ok f ∧
      f.axes.length = max xSubranges.length 1 ∧
      ∀ ax ∈ f.axes, ax.children = cs := by
  have hr1 : max ySubranges.length 1 = 1 := Nat.max_eq_right hrow
  have hc1 : 1 ≤ max xSubranges.length 1 := le_max_right _ _
  have hR1 : List.range 1 = [0] := rfl
  simp only [splitAxes, hax, List.head?_cons, hr1, hR1, one_mul,
    List.map_cons, List.map_nil, flatMap_pairZero]
  have hcondx : (padRatio [] (max xSubranges.length 1)).length
      = max xSubranges.length 1 := padRatio_nil_length _ (by omega)
  have hcondy : ((padRatio [] 1).reverse).length = 1 := by
    rw [List.length_reverse]
    exact padRatio_nil_length 1 one_pos
  rw [if_pos ⟨hcondx, hcondy⟩]
  have hF1 : ∀ i ax,
      cellUpdate axes0 xSubranges ySubranges.reverse
        (max xSubranges.length 1) 1 i 0 ax
      = .ok (cellApply cs axes0 xSubranges ySubranges.reverse
          (max xSubranges.length 1) 1 i 0 ax) := by
    intro i ax
    simp [cellUpdate, hcl, bind, Except.bind]
  obtain ⟨axs1, hrun1, hlen1, hmem1, _⟩ :=
    runCells_nodup _ _ hF1 (List.range (max xSubranges.length 1))
      (List.replicate (max xSubranges.length 1) {})
      (List.nodup_range _)
      (fun i hi => by simpa using List.mem_range.mp hi)
  have hF2 : ∀ i ax,
      (fun i j ax => (Except.ok (markerUpdate (max xSubranges.length 1) 1
        i j ax) : Except PyErr Axes)) i 0 ax
      = .ok (markerUpdate (max xSubranges.length 1) 1 i 0 ax) :=
    fun _ _ => rfl
  obtain ⟨axs2, hrun2, hlen2, hmem2, _⟩ :=
    runCells_nodup
      (fun i j ax => (Except.ok (markerUpdate (max xSubranges.length 1) 1
        i j ax) : Except PyErr Axes))
      (fun i ax => markerUpdate (max xSubranges.length 1) 1 i 0 ax)
      hF2 (List.range (max xSubranges.length 1)) axs1
      (List.nodup_range _)
      (fun i hi => by
        rw [hlen1, List.length_replicate]
        exact List.mem_range.mp hi)
  rw [hrun1]
  simp only [bind, Except.bind]
  rw [hrun2]
  simp only [bind, Except.bind]
  refine ⟨_, rfl, ?_, ?_⟩
  · show axs2.length = max xSubranges.length 1
    rw [hlen2, hlen1, List.length_replicate]
  · intro ax haxm
    obtain ⟨k, hk, hget⟩ := List.mem_iff_getElem.mp haxm
    have hkc : k < max xSubranges.length 1 := by
      rw [hlen2, hlen1, List.length_replicate] at hk
      exact hk
    have hrepl : (List.replicate (max xSubranges.length 1)
        ({} : Axes)).getD k {} = {} := by
      rw [List.getD_eq_getElem _ _ (by simpa using hkc)]
      exact List.getElem_replicate _ _
    have h2 := hmem2 k (List.mem_range.mpr hkc)
    rw [hmem1 k (List.mem_range.mpr hkc), hrepl] at h2
    have hax2 : ax = axs2.getD k {} := by
      rw [List.getD_eq_getElem _ _ hk, hget]
    rw [hax2, h2]
    simp [markerUpdate, cellApply]

/-- C2 witness: splitting `figC2` into two columns puts exactly the
line clone onto both subplots; the rectangle, text and spine children
are not duplicated. -/
theorem splitAxes_rowGrid_clones_witness :
    ∃ f, splitAxes figC2 "" "png" [(10, 11), (12, 13)] [] [] [] 1 2
        = .ok f ∧
      f.axes.length = 2 ∧
      ∀ ax ∈ f.axes, ax.children = [.line2D [1, 2] [3, 4] "r"] :=
  splitAxes_rowGrid_clones figC2
    { children := [.rectangle (0, 0) 1 1, .text (0, 0) "t",
      .spine "left" [], .line2D [1, 2] [3, 4] "r"] } []
    [(10, 11), (12, 13)] [] "" "png" 1 2 [.line2D [1, 2] [3, 4] "r"]
    rfl (by decide) (by decide)
